import Mathlib

/-!
Verification of the `goagen/gen_app` application code generator.

The development shallowly embeds `src/goagen/gen_app/generator.go`:
the IR data model (`design` package types used by the generator), the
generator orchestration (`Generator.Generate`, `Cleanup`, the per-artifact
`generateX` functions) and the data each artifact writer receives.

File-system effects are made explicit: the state of the output directory is
a value of type `FS` (absent, or present with a list of written files), and
each fallible external step (directory creation, template execution /
formatting inside a writer) can be made to fail through an `Env` of injected
errors, mirroring the error returns of the Go code.

Helpers of the repository that are outside the sampled source
(`codegen.Goify`, `codegen.BuildEncoders`, `design` methods such as
`Context`, `IsBuiltIn`, the resource-test writer) are modelled from the
spec; each such definition carries a doc comment starting with
`Modelled from the spec:`.
-/

namespace GenApp

/-- Recursive value-shape model of the `design` attribute tree (§3 of the
spec): primitive, object, array, map or user-type reference. -/
inductive DataType where
  | primitive (name : String)
  | objectType (fields : List (String × DataType))
  | arrayType (elem : DataType)
  | mapType (key elem : DataType)
  | userTypeRef (name : String)

/-- Fields of an object type; empty for every non-object type
(mirrors `design.DataType.ToObject`). -/
def DataType.toObject : DataType → List (String × DataType)
  | .objectType fields => fields
  | _ => []

/-- True exactly on object types (mirrors `design.DataType.IsObject`). -/
def DataType.isObject : DataType → Bool
  | .objectType _ => true
  | _ => false

/-- True exactly on array types (mirrors `design.DataType.IsArray`). -/
def DataType.isArray : DataType → Bool
  | .arrayType _ => true
  | _ => false

/-- `design.AttributeDefinition`: a typed attribute with its description and
required-field validation (§3). -/
structure AttributeDefinition where
  dtype : DataType
  description : String := ""
  required : List String := []

/-- `design.UserTypeDefinition`: a named user type wrapping an attribute. -/
structure UserTypeDefinition where
  typeName : String
  attributeDefinition : AttributeDefinition

/-- `design.MediaTypeDefinition`: identifier, underlying type shape and
whether the media type is one of the built-in ones. The `builtIn` flag is
modelled from the spec: `IsBuiltIn` is not part of the sampled source;
per §3 "built-in primitive media types are excluded from code generation". -/
structure MediaTypeDefinition where
  identifier : String
  typeName : String
  dtype : DataType
  builtIn : Bool

/-- `design.ResponseDefinition` (§3). -/
structure ResponseDefinition where
  name : String
  status : Nat
  description : String := ""
  mediaType : String := ""
deriving DecidableEq

/-- `design.RouteDefinition` (§3). -/
structure RouteDefinition where
  verb : String
  path : String

/-- `design.SecurityScheme` (§3). -/
structure SecurityScheme where
  schemeName : String
  kind : String

/-- `design.ActionDefinition`: the `parentName` field is the `Parent`
back-reference's name (the Go code dereferences `a.Parent.Name`). -/
structure ActionDefinition where
  name : String
  parentName : String
  routes : List RouteDefinition := []
  params : Option AttributeDefinition := none
  headers : Option AttributeDefinition := none
  payload : Option UserTypeDefinition := none
  payloadOptional : Bool := false
  responses : List (String × ResponseDefinition) := []
  security : Option String := none

/-- `design.ResourceDefinition` (§3), including the precomputed values the
controller writer reads (`PreflightPaths`, `AllOrigins`, `FileServers`). -/
structure ResourceDefinition where
  name : String
  basePath : String := ""
  description : String := ""
  mediaType : String := ""
  canonicalActionName : String := ""
  actions : List (String × ActionDefinition) := []
  headers : Option AttributeDefinition := none
  origins : List String := []
  preflightPaths : List String := []
  fileServers : List String := []

/-- `design.APIDefinition`: the root of the IR, owning the registries. -/
structure APIDefinition where
  name : String
  title : String := ""
  description : String := ""
  resources : List (String × ResourceDefinition) := []
  mediaTypes : List (String × MediaTypeDefinition) := []
  userTypes : List (String × UserTypeDefinition) := []
  produces : List String := []
  consumes : List String := []
  securitySchemes : List SecurityScheme := []

/-- Registry lookup by media-type identifier
(mirrors `design.APIDefinition.MediaTypeWithIdentifier`). -/
def APIDefinition.mediaTypeWithIdentifier (api : APIDefinition) (id : String) :
    Option MediaTypeDefinition :=
  (api.mediaTypes.find? (fun kv => kv.2.identifier = id)).map (fun kv => kv.2)

/-- Modelled from the spec: `design.APIDefinition.Context` (not in the
sampled source) — short description of the API used by generated titles. -/
def APIDefinition.contextDesc (api : APIDefinition) : String :=
  if api.name = "" then "unnamed API" else "API \"" ++ api.name ++ "\""

/-- Word separator characters recognised by the casing normalizer. -/
def isWordSep (c : Char) : Bool := c = '-' || c = '_'

/-- Splits a character list into words at `-`/`_` separators and before
each uppercase letter. -/
def breakWords : List Char → List Char → List (List Char) → List (List Char)
  | [], cur, acc => acc ++ (if cur.isEmpty then [] else [cur])
  | c :: rest, cur, acc =>
    if isWordSep c then
      breakWords rest [] (acc ++ (if cur.isEmpty then [] else [cur]))
    else if c.isUpper && !cur.isEmpty then
      breakWords rest [c] (acc ++ [cur])
    else
      breakWords rest (cur ++ [c]) acc

/-- Capitalizes a word: first character uppercased, rest lowercased. -/
def capWord : List Char → List Char
  | [] => []
  | c :: cs => c.toUpper :: cs.map Char.toLower

/-- Lowercases a whole word. -/
def lowerWord (w : List Char) : List Char := w.map Char.toLower

/-- Modelled from the spec: `codegen.Goify` (not in the sampled source) —
§4.2: a deterministic word-boundary-aware capitalization so free-form input
("get-widget", "get_widget", "GetWidget") normalizes identically.
`firstUpper` selects an exported (capitalized) identifier. -/
def Goify (s : String) (firstUpper : Bool) : String :=
  let ws := breakWords s.data [] []
  let capped :=
    match ws, firstUpper with
    | [], _ => []
    | w :: rest, true => capWord w :: rest.map capWord
    | w :: rest, false => lowerWord w :: rest.map capWord
  ⟨capped.flatten⟩

/-! ## Encoder/decoder resolution (§2, §4.4 Encoder/Decoder Resolver) -/

/-- `codegen.EncoderTemplateData`: one (package, function) binding plus the
MIME types it serves. -/
structure EncoderTemplateData where
  packagePath : String
  packageName : String
  funcName : String
  mimeTypes : List String

/-- Insert a string into a strictly sorted list, dropping duplicates. -/
def insertSortedNodup (x : String) : List String → List String
  | [] => [x]
  | y :: ys =>
    if x = y then y :: ys
    else if x < y then x :: y :: ys
    else y :: insertSortedNodup x ys

/-- Sorted deduplication of a list of strings. -/
def sortedDedup (l : List String) : List String := l.foldr insertSortedNodup []

/-- Modelled from the spec: the table mapping known MIME types to the
package providing their serializer (§2: "maps the API's declared content
types ... to a minimal ordered list of (package, function) bindings"). -/
def mimePackagePath (mime : String) : String :=
  if mime = "application/json" || mime = "application/xml" ||
     mime = "application/gob" || mime = "text/plain" then
    "github.com/goadesign/goa"
  else
    "github.com/goadesign/goa/encoding/" ++ mime

/-- Last `/`-separated component of a package path. -/
def lastPathComponent (p : String) : String := ((p.splitOn "/").getLast?).getD p

/-- Modelled from the spec: `codegen.BuildEncoders` (not in the sampled
source) — §2/§4.4: maps the declared MIME lists to a deduplicated,
alphabetically sorted list of (package, function) bindings, one binding per
serializer package, each carrying the deduplicated MIME types it serves. -/
def BuildEncoders (mimes : List String) (encoder : Bool) : List EncoderTemplateData :=
  let pkgs := sortedDedup (mimes.map mimePackagePath)
  pkgs.map fun p =>
    { packagePath := p
      packageName := lastPathComponent p
      funcName := if encoder then "NewEncoder" else "NewDecoder"
      mimeTypes := sortedDedup (mimes.filter (fun m => mimePackagePath m = p)) }

/-- The goa runtime package path, never added as an extra import. -/
def goaPackagePath : String := "github.com/goadesign/goa"

/-- Extra import package paths added to `controllers.go`
(mirrors `generateControllers` lines 185–201: collect the binding package
paths of both encoder lists into a set, drop the goa package, sort). -/
def controllersExtraImports (encoders decoders : List EncoderTemplateData) :
    List String :=
  List.insertionSort (· ≤ ·)
    ((((encoders ++ decoders).map (fun d => d.packagePath)).dedup).filter
      (fun p => p ≠ goaPackagePath))

/-! ## Writer template data -/

/-- `genapp.ContextTemplateData` as filled by `generateContexts`. -/
structure ContextTemplateData where
  name : String
  resourceName : String
  actionName : String
  payload : Option UserTypeDefinition
  params : Option AttributeDefinition
  headers : Option AttributeDefinition
  routes : List RouteDefinition
  responses : List (String × ResponseDefinition)
  api : APIDefinition
  defaultPkg : String
  security : Option String

/-- The per-action map built by `generateControllers` (lines 216–224). -/
structure ActionTemplateData where
  name : String
  routes : List RouteDefinition
  context : String
  unmarshal : String
  payload : Option UserTypeDefinition
  payloadOptional : Bool
  security : Option String

/-- `genapp.ControllerTemplateData` as filled by `generateControllers`. -/
structure ControllerTemplateData where
  api : APIDefinition
  resource : String
  preflightPaths : List String
  fileServers : List String
  actions : List ActionTemplateData
  encoders : List EncoderTemplateData
  decoders : List EncoderTemplateData
  origins : List String

/-- `genapp.ResourceData` as filled by `generateHrefs`. -/
structure ResourceData where
  name : String
  identifier : String
  description : String
  mtype : Option MediaTypeDefinition
  canonicalTemplate : String
  canonicalParams : List String

/-! ## Attribute merging used by the contexts writer -/

/-- Merge of two object field lists: fields of the second argument override
fields of the first on key conflict. -/
def mergeFields (a b : List (String × DataType)) : List (String × DataType) :=
  a.filter (fun kv => ¬ b.any (fun kv2 => kv2.1 = kv.1)) ++ b

/-- Modelled from the spec: `AttributeDefinition.Merge` (not in the sampled
source) — §4.1: merges object attributes, the argument's fields taking
precedence on key conflict. -/
def mergeAttr : Option AttributeDefinition → Option AttributeDefinition →
    Option AttributeDefinition
  | none, b => b
  | some a, none => some a
  | some a, some b =>
    some { dtype := .objectType (mergeFields a.dtype.toObject b.dtype.toObject) }

/-- Mirrors the normalization in `generateContexts` (lines 125–131): an
attribute whose object has no fields is replaced by `none` so that
template conditionals see it as absent. -/
def normEmptyObject : Option AttributeDefinition → Option AttributeDefinition
  | some attrDef => if attrDef.dtype.toObject.length = 0 then none else some attrDef
  | none => none

/-- Modelled from the spec: `ActionDefinition.AllParams` (not in the sampled
source) — §3: the action's parameters, resource-level parameters having been
merged into them at link time. -/
def ActionDefinition.allParams (a : ActionDefinition) : Option AttributeDefinition :=
  a.params

/-- Modelled from the spec: `codegen.CanonicalTemplate` (not in the sampled
source) — §4.4 Href Writer: the canonical URL template comes from the
canonical action's route and falls back to the declared base path. -/
def canonicalTemplate (r : ResourceDefinition) : String :=
  match (r.actions.find? (fun kv => kv.1 = r.canonicalActionName)).map (fun kv => kv.2) with
  | some a =>
    match a.routes with
    | rt :: _ => rt.path
    | [] => r.basePath
  | none => r.basePath

/-- Modelled from the spec: `codegen.CanonicalParams` (not in the sampled
source) — the wildcard parameter names of the canonical template. -/
def canonicalParams (r : ResourceDefinition) : List String :=
  ((canonicalTemplate r).splitOn "/").filterMap fun seg =>
    if seg.startsWith ":" then some (seg.drop 1) else none

/-! ## Orchestration state: filesystem, fault environment, trace -/

/-- Content of one generated file, as the data handed to its writer's
templates. `unfinished` marks a file whose writer failed mid-render. -/
inductive FileContent where
  | contextsFile (title pkg : String) (units : List ContextTemplateData)
  | controllersFile (title pkg : String) (extraImports : List String)
      (encoders decoders : List EncoderTemplateData)
      (ctrls : List ControllerTemplateData)
  | securityFile (title pkg : String) (schemes : List SecurityScheme)
  | hrefsFile (title pkg : String) (units : List ResourceData)
  | mediaTypesFile (title pkg : String) (units : List MediaTypeDefinition)
  | userTypesFile (title pkg : String) (units : List UserTypeDefinition)
  | testFile (resourceName : String)
  | unfinished

/-- State of the output directory: `none` when the directory is absent,
`some files` when it exists and holds `files` (path, content) in creation
order. -/
abbrev FS := Option (List (String × FileContent))

/-- The artifact kinds, in the order `Generate` invokes their writers. -/
inductive WriterKind where
  | contexts
  | controllers
  | security
  | hrefs
  | mediaTypes
  | userTypes
  | resourceTest
deriving DecidableEq

/-- Observable orchestration events, recorded in order. -/
inductive Event where
  | catchRegistered
  | removedAll
  | madeDir
  | writerRan (w : WriterKind)
  | cleanupInvoked
deriving DecidableEq

/-- Fault-injection environment: for each fallible external step, the error
it returns (`none` = the step succeeds). This mirrors the error returns of
`os.MkdirAll`, `codegen.BuildEncoders` and each writer's
`Execute`/`FormatCode` in the Go code. -/
structure Env where
  mkdirErr : Option String := none
  contextsErr : Option String := none
  buildEncodersErr : Option String := none
  controllersErr : Option String := none
  securityErr : Option String := none
  hrefsErr : Option String := none
  mediaTypesErr : Option String := none
  userTypesErr : Option String := none
  resourceTestErr : Option String := none
deriving DecidableEq

/-- The environment in which every external step succeeds. -/
def Env.noErrors : Env := {}

/-- The `Generator` receiver struct (generator.go lines 16–21). -/
structure Generator where
  outDir : String
  target : String
  notest : Bool
  genfiles : List String
deriving DecidableEq

/-- Mutable state threaded through one `Generate` run: the `genfiles`
accumulator, the output directory and the event trace. -/
structure GenState where
  genfiles : List String
  fs : FS
  trace : List Event

/-- Result of a `Generate` call: the returned file list (`none` = Go `nil`),
the returned error, the final directory state and the event trace. -/
structure GenResult where
  files : Option (List String)
  error : Option String
  fs : FS
  trace : List Event

/-- `filepath.Join` restricted to the two-component uses in generator.go. -/
def joinPath (dir file : String) : String := dir ++ "/" ++ file

/-- Adds a written file to the output directory. -/
def writeFile (st : GenState) (path : String) (content : FileContent) : GenState :=
  { st with fs := some ((st.fs.getD []) ++ [(path, content)]) }

/-! ## The artifact generation steps (generator.go lines 101–371) -/

/-- The `key != 101` response filter of `generateContexts` (lines 133–138):
every response whose status is 101 is dropped, all others kept unchanged. -/
def non101 (rs : List (String × ResponseDefinition)) :
    List (String × ResponseDefinition) :=
  rs.filter (fun kv => kv.2.status ≠ 101)

/-- The context name derived by `generateContexts` (line 123):
`codegen.Goify(a.Name, true) + codegen.Goify(a.Parent.Name, true) + "Context"`. -/
def contextsWriterCtxName (a : ActionDefinition) : String :=
  Goify a.name true ++ Goify a.parentName true ++ "Context"

/-- The context name derived by `generateControllers` (line 214):
`fmt.Sprintf("%s%sContext", codegen.Goify(a.Name, true), codegen.Goify(r.Name, true))`. -/
def controllersWriterCtxName (r : ResourceDefinition) (a : ActionDefinition) : String :=
  Goify a.name true ++ Goify r.name true ++ "Context"

/-- The `ContextTemplateData` built for one action (lines 122–151). -/
def contextDataFor (target : String) (api : APIDefinition)
    (r : ResourceDefinition) (a : ActionDefinition) : ContextTemplateData :=
  { name := contextsWriterCtxName a
    resourceName := r.name
    actionName := a.name
    payload := a.payload
    params := normEmptyObject a.allParams
    headers := normEmptyObject (mergeAttr r.headers a.headers)
    routes := a.routes
    responses := non101 a.responses
    api := api
    defaultPkg := target
    security := a.security }

/-- All context units of one run, in resource/action iteration order. -/
def contextsUnits (target : String) (api : APIDefinition) :
    List ContextTemplateData :=
  (api.resources.map fun rkv =>
    rkv.2.actions.map fun akv => contextDataFor target api rkv.2 akv.2).flatten

/-- `generateContexts` (lines 103–159): appends `contexts.go` to `genfiles`
before executing the writer, then renders one unit per action. -/
def generateContexts (g : Generator) (api : APIDefinition) (env : Env)
    (st : GenState) : GenState × Option String :=
  let ctxFile := joinPath g.outDir "contexts.go"
  let title := api.contextDesc ++ ": Application Contexts"
  let st := { st with genfiles := st.genfiles ++ [ctxFile],
                      trace := st.trace ++ [Event.writerRan WriterKind.contexts] }
  match env.contextsErr with
  | some e => (writeFile st ctxFile FileContent.unfinished, some e)
  | none =>
    (writeFile st ctxFile
      (FileContent.contextsFile title g.target (contextsUnits g.target api)), none)

/-- The `ControllerTemplateData` built for one resource (lines 206–237);
`none` when the resource has neither actions nor file servers. -/
def controllerDataFor (api : APIDefinition)
    (encoders decoders : List EncoderTemplateData) (r : ResourceDefinition) :
    Option ControllerTemplateData :=
  let actions : List ActionTemplateData := r.actions.map fun akv =>
    { name := Goify akv.2.name true
      routes := akv.2.routes
      context := controllersWriterCtxName r akv.2
      unmarshal := "unmarshal" ++ Goify akv.2.name true ++ Goify r.name true ++ "Payload"
      payload := akv.2.payload
      payloadOptional := akv.2.payloadOptional
      security := akv.2.security }
  if actions.length > 0 ∨ r.fileServers.length > 0 then
    some { api := api
           resource := Goify r.name true
           preflightPaths := r.preflightPaths
           fileServers := r.fileServers
           actions := actions
           encoders := encoders
           decoders := decoders
           origins := r.origins }
  else none

/-- All controller units of one run. -/
def controllersUnits (api : APIDefinition)
    (encoders decoders : List EncoderTemplateData) : List ControllerTemplateData :=
  api.resources.filterMap fun rkv => controllerDataFor api encoders decoders rkv.2

/-- `generateControllers` (lines 163–247): resolves the encoder and decoder
bindings, computes the sorted extra imports, and appends `controllers.go`
to `genfiles` only after `BuildEncoders` succeeded. -/
def generateControllers (g : Generator) (api : APIDefinition) (env : Env)
    (st : GenState) : GenState × Option String :=
  let ctlFile := joinPath g.outDir "controllers.go"
  let title := api.contextDesc ++ ": Application Controllers"
  let st := { st with trace := st.trace ++ [Event.writerRan WriterKind.controllers] }
  match env.buildEncodersErr with
  | some e => (st, some e)
  | none =>
    let encoders := BuildEncoders api.produces true
    let decoders := BuildEncoders api.consumes false
    let extraImports := controllersExtraImports encoders decoders
    let st := { st with genfiles := st.genfiles ++ [ctlFile] }
    match env.controllersErr with
    | some e => (writeFile st ctlFile FileContent.unfinished, some e)
    | none =>
      (writeFile st ctlFile
        (FileContent.controllersFile title g.target extraImports encoders decoders
          (controllersUnits api encoders decoders)), none)

/-- `generateSecurity` (lines 251–278): returns immediately when no security
scheme is declared; otherwise appends `security.go` and renders the
declared schemes. -/
def generateSecurity (g : Generator) (api : APIDefinition) (env : Env)
    (st : GenState) : GenState × Option String :=
  let st := { st with trace := st.trace ++ [Event.writerRan WriterKind.security] }
  if api.securitySchemes.length = 0 then (st, none)
  else
    let secFile := joinPath g.outDir "security.go"
    let title := api.contextDesc ++ ": Application Security"
    let st := { st with genfiles := st.genfiles ++ [secFile] }
    match env.securityErr with
    | some e => (writeFile st secFile FileContent.unfinished, some e)
    | none =>
      (writeFile st secFile
        (FileContent.securityFile title g.target api.securitySchemes), none)

/-- The `ResourceData` built for one resource by `generateHrefs`
(lines 292–308). -/
def resourceDataFor (api : APIDefinition) (r : ResourceDefinition) : ResourceData :=
  let m := api.mediaTypeWithIdentifier r.mediaType
  { name := Goify r.name true
    identifier := match m with
                  | some mt => mt.identifier
                  | none => "text/plain"
    description := r.description
    mtype := m
    canonicalTemplate := canonicalTemplate r
    canonicalParams := canonicalParams r }

/-- All href units of one run. -/
def hrefsUnits (api : APIDefinition) : List ResourceData :=
  api.resources.map fun rkv => resourceDataFor api rkv.2

/-- `generateHrefs` (lines 281–315): renders one unit per resource;
`hrefs.go` is appended to `genfiles` whether or not the writer errored. -/
def generateHrefs (g : Generator) (api : APIDefinition) (env : Env)
    (st : GenState) : GenState × Option String :=
  let hrefFile := joinPath g.outDir "hrefs.go"
  let title := api.contextDesc ++ ": Application Resource Href Factories"
  let st := { st with genfiles := st.genfiles ++ [hrefFile],
                      trace := st.trace ++ [Event.writerRan WriterKind.hrefs] }
  match env.hrefsErr with
  | some e => (writeFile st hrefFile FileContent.unfinished, some e)
  | none =>
    (writeFile st hrefFile
      (FileContent.hrefsFile title g.target (hrefsUnits api)), none)

/-- The media-type emission filter of `generateMediaTypes` (lines 333–341):
a unit is rendered only for non-built-in media types whose underlying type
is an object or an array. -/
def mediaTypeEmitted (mt : MediaTypeDefinition) : Bool :=
  !mt.builtIn && (mt.dtype.isObject || mt.dtype.isArray)

/-- All media-type units of one run. -/
def mediaTypesUnits (api : APIDefinition) : List MediaTypeDefinition :=
  (api.mediaTypes.filter fun kv => mediaTypeEmitted kv.2).map fun kv => kv.2

/-- `generateMediaTypes` (lines 319–347): iterates the media-type registry,
silently skipping built-in media types and media types whose underlying
type is neither object nor array; `media_types.go` is always appended. -/
def generateMediaTypes (g : Generator) (api : APIDefinition) (env : Env)
    (st : GenState) : GenState × Option String :=
  let mtFile := joinPath g.outDir "media_types.go"
  let title := api.contextDesc ++ ": Application Media Types"
  let st := { st with genfiles := st.genfiles ++ [mtFile],
                      trace := st.trace ++ [Event.writerRan WriterKind.mediaTypes] }
  match env.mediaTypesErr with
  | some e => (writeFile st mtFile FileContent.unfinished, some e)
  | none =>
    (writeFile st mtFile
      (FileContent.mediaTypesFile title g.target (mediaTypesUnits api)), none)

/-- All user-type units of one run (every registered user type). -/
def userTypesUnits (api : APIDefinition) : List UserTypeDefinition :=
  api.userTypes.map fun kv => kv.2

/-- `generateUserTypes` (lines 351–371): renders one unit per user type;
`user_types.go` is always appended. -/
def generateUserTypes (g : Generator) (api : APIDefinition) (env : Env)
    (st : GenState) : GenState × Option String :=
  let utFile := joinPath g.outDir "user_types.go"
  let title := api.contextDesc ++ ": Application User Types"
  let st := { st with genfiles := st.genfiles ++ [utFile],
                      trace := st.trace ++ [Event.writerRan WriterKind.userTypes] }
  match env.userTypesErr with
  | some e => (writeFile st utFile FileContent.unfinished, some e)
  | none =>
    (writeFile st utFile
      (FileContent.userTypesFile title g.target (userTypesUnits api)), none)

/-- Modelled from the spec: the resource-test writer invoked by `Generate`
(`generateResourceTest` is not in the sampled source; §4.3 runs it unless
disabled, §6 fixes test file naming per artifact kind, and the generator
tests expect a test directory entry plus one test file per resource with
actions, and no test entries for an API with zero resources). -/
def resourceTestFiles (outDir : String) (api : APIDefinition) : List String :=
  let rs := api.resources.filter fun kv => kv.2.actions.length > 0
  if rs.length = 0 then []
  else
    joinPath outDir "test" ::
      rs.map fun kv => joinPath outDir ("test/" ++ Goify kv.2.name false ++ "_testing.go")

/-- Modelled from the spec: `generateResourceTest` — appends the test
entries and renders one test file per resource with actions. -/
def generateResourceTest (g : Generator) (api : APIDefinition) (env : Env)
    (st : GenState) : GenState × Option String :=
  let tfs := resourceTestFiles g.outDir api
  let st := { st with genfiles := st.genfiles ++ tfs,
                      trace := st.trace ++ [Event.writerRan WriterKind.resourceTest],
                      fs := some ((st.fs.getD []) ++
                        ((api.resources.filter fun kv => kv.2.actions.length > 0).map
                          fun kv => (joinPath g.outDir
                            ("test/" ++ Goify kv.2.name false ++ "_testing.go"),
                            FileContent.testFile kv.2.name))) }
  match env.resourceTestErr with
  | some e => (st, some e)
  | none => (st, none)

/-! ## The orchestrator (generator.go lines 46–99) -/

/-- `Generator.Cleanup` (lines 93–99): a no-op when `genfiles` is empty,
otherwise removes the whole output directory and clears `genfiles`. The
`cleanupInvoked` event records the call itself. -/
def Cleanup (st : GenState) : GenState :=
  let st := { st with trace := st.trace ++ [Event.cleanupInvoked] }
  if st.genfiles.length = 0 then st
  else { st with genfiles := [], fs := none }

/-- Error short-circuiting between two generation steps, mirroring the
`if err := ...; err != nil { return nil, err }` chain. -/
def andThen (r : GenState × Option String)
    (f : GenState → GenState × Option String) : GenState × Option String :=
  match r with
  | (st, some e) => (st, some e)
  | (st, none) => f st

/-- The writer sequence of `Generate` (lines 65–87). -/
def runWriters (g : Generator) (api : APIDefinition) (env : Env)
    (st : GenState) : GenState × Option String :=
  andThen (generateContexts g api env st) fun st =>
  andThen (generateControllers g api env st) fun st =>
  andThen (generateSecurity g api env st) fun st =>
  andThen (generateHrefs g api env st) fun st =>
  andThen (generateMediaTypes g api env st) fun st =>
  andThen (generateUserTypes g api env st) fun st =>
  if g.notest then (st, none) else generateResourceTest g api env st

/-- The error message returned for a nil API definition (line 48). -/
def missingAPIMsg : String :=
  "missing API definition, make sure design is properly initialized"

/-- Assembles the result, running the deferred cleanup (lines 53–57) when
an error occurred: the error is returned with a nil file list. -/
def finishRun (st : GenState) : Option String → GenResult
  | some e =>
    let st := Cleanup st
    { files := none, error := some e, fs := st.fs, trace := st.trace }
  | none => { files := some st.genfiles, error := none, fs := st.fs, trace := st.trace }

/-- `Generator.Generate` (lines 46–90): nil-API check, interrupt-cleanup
registration, delete and recreate of the output directory, the writer
sequence, and either the accumulated file list or rollback plus error. -/
def Generate (g : Generator) (api : Option APIDefinition) (env : Env)
    (fs : FS) : GenResult :=
  match api with
  | none => { files := none, error := some missingAPIMsg, fs := fs, trace := [] }
  | some api =>
    let st : GenState :=
      { genfiles := g.genfiles, fs := none,
        trace := [Event.catchRegistered, Event.removedAll] }
    match env.mkdirErr with
    | some e => finishRun st (some e)
    | none =>
      let st := { st with fs := some [], trace := st.trace ++ [Event.madeDir],
                          genfiles := [g.outDir] }
      let res := runWriters g api env st
      finishRun res.1 res.2

/-! ## Characterizations of one run -/

/-- The artifact kinds in invocation order (§4.3 step 3). -/
def writerOrder : List WriterKind :=
  [WriterKind.contexts, WriterKind.controllers, WriterKind.security,
   WriterKind.hrefs, WriterKind.mediaTypes, WriterKind.userTypes,
   WriterKind.resourceTest]

/-- Projects an event to the writer it runs, if any. -/
def Event.writerOf : Event → Option WriterKind
  | .writerRan w => some w
  | _ => none

/-- The sequence of writers run, read off an event trace. -/
def writerTrace (t : List Event) : List WriterKind := t.filterMap Event.writerOf

/-- How many entries of `writerOrder` are invoked by the writer sequence for
a given fault environment: execution stops at (and includes) the first
writer whose step fails. -/
def writersCompleted (api : APIDefinition) (env : Env) (notest : Bool) : Nat :=
  match env.contextsErr with
  | some _ => 1
  | none =>
  match env.buildEncodersErr with
  | some _ => 2
  | none =>
  match env.controllersErr with
  | some _ => 2
  | none =>
  match (if api.securitySchemes.length = 0 then none else env.securityErr) with
  | some _ => 3
  | none =>
  match env.hrefsErr with
  | some _ => 4
  | none =>
  match env.mediaTypesErr with
  | some _ => 5
  | none =>
  match env.userTypesErr with
  | some _ => 6
  | none => if notest then 6 else 7

/-- Writers invoked by a whole `Generate` run (0 when mkdir fails). -/
def stepsRun (api : APIDefinition) (env : Env) (notest : Bool) : Nat :=
  match env.mkdirErr with
  | some _ => 0
  | none => writersCompleted api env notest

/-- The error the writer sequence returns, `none` on success. -/
def runErr (api : APIDefinition) (env : Env) (notest : Bool) : Option String :=
  match env.contextsErr with
  | some e => some e
  | none =>
  match env.buildEncodersErr with
  | some e => some e
  | none =>
  match env.controllersErr with
  | some e => some e
  | none =>
  match (if api.securitySchemes.length = 0 then none else env.securityErr) with
  | some e => some e
  | none =>
  match env.hrefsErr with
  | some e => some e
  | none =>
  match env.mediaTypesErr with
  | some e => some e
  | none =>
  match env.userTypesErr with
  | some e => some e
  | none => if notest then none else env.resourceTestErr

/-- File paths appended by a fully successful writer sequence, in order. -/
def successFiles (g : Generator) (api : APIDefinition) : List String :=
  [joinPath g.outDir "contexts.go", joinPath g.outDir "controllers.go"] ++
  (if api.securitySchemes.length = 0 then [] else [joinPath g.outDir "security.go"]) ++
  [joinPath g.outDir "hrefs.go", joinPath g.outDir "media_types.go",
   joinPath g.outDir "user_types.go"] ++
  (if g.notest then [] else resourceTestFiles g.outDir api)

/-- Test file contents written by the resource-test writer. -/
def testContents (g : Generator) (api : APIDefinition) : List (String × FileContent) :=
  (api.resources.filter fun kv => kv.2.actions.length > 0).map fun kv =>
    (joinPath g.outDir ("test/" ++ Goify kv.2.name false ++ "_testing.go"),
     FileContent.testFile kv.2.name)

/-- Output-directory contents written by a fully successful writer
sequence, in creation order. -/
def successContents (g : Generator) (api : APIDefinition) : List (String × FileContent) :=
  [(joinPath g.outDir "contexts.go",
    FileContent.contextsFile (api.contextDesc ++ ": Application Contexts") g.target
      (contextsUnits g.target api)),
   (joinPath g.outDir "controllers.go",
    FileContent.controllersFile (api.contextDesc ++ ": Application Controllers") g.target
      (controllersExtraImports (BuildEncoders api.produces true) (BuildEncoders api.consumes false))
      (BuildEncoders api.produces true) (BuildEncoders api.consumes false)
      (controllersUnits api (BuildEncoders api.produces true) (BuildEncoders api.consumes false)))] ++
  (if api.securitySchemes.length = 0 then []
   else [(joinPath g.outDir "security.go",
     FileContent.securityFile (api.contextDesc ++ ": Application Security") g.target
       api.securitySchemes)]) ++
  [(joinPath g.outDir "hrefs.go",
    FileContent.hrefsFile (api.contextDesc ++ ": Application Resource Href Factories")
      g.target (hrefsUnits api)),
   (joinPath g.outDir "media_types.go",
    FileContent.mediaTypesFile (api.contextDesc ++ ": Application Media Types") g.target
      (mediaTypesUnits api)),
   (joinPath g.outDir "user_types.go",
    FileContent.userTypesFile (api.contextDesc ++ ": Application User Types") g.target
      (userTypesUnits api))] ++
  (if g.notest then [] else testContents g api)

end GenApp
namespace GenApp

/-! ## Concrete fixtures (mirroring the generator tests) -/

/-- The generator configuration of the tests: output directory `out/app`,
package `app`, test generation enabled, no files yet. -/
def gEx : Generator :=
  { outDir := "out/app", target := "app", notest := false, genfiles := [] }

/-- The "dummy API with no resource" of the generator tests. -/
def dummyAPI : APIDefinition :=
  { name := "test api", title := "dummy API with no resource",
    description := "I told you it's dummy" }

/-- An environment in which the contexts writer fails. -/
def envFailContexts : Env := { contextsErr := some "disk full" }

/-- The attribute holding the `id` parameter of the simple-API test. -/
def widgetParams : AttributeDefinition :=
  { dtype := DataType.objectType [("id", DataType.primitive "String")]
    required := ["id"] }

/-- The `ok` response of the simple-API test. -/
def widgetOkResponse : ResponseDefinition :=
  { name := "ok"
    status := 200
    description := "get of widgets"
    mediaType := "vnd.rightscale.codegen.test.widgets" }

/-- The `get` action of the simple-API test. -/
def widgetAction : ActionDefinition :=
  { name := "get", parentName := "Widget",
    routes := [{ verb := "GET", path := "/:id" }],
    params := some widgetParams,
    responses := [("ok", widgetOkResponse)] }

/-- The `Widget` resource of the simple-API test. -/
def widgetRes : ResourceDefinition :=
  { name := "Widget", basePath := "/widgets", description := "Widgetty",
    mediaType := "vnd.rightscale.codegen.test.widgets",
    canonicalActionName := "get", actions := [("get", widgetAction)] }

/-- The simple API of the generator tests: one resource, one media type. -/
def widgetAPI : APIDefinition :=
  { name := "test api", resources := [("Widget", widgetRes)],
    mediaTypes := [("vnd.rightscale.codegen.test.widgets",
      { identifier := "vnd.rightscale.codegen.test.widgets", typeName := "id",
        dtype := DataType.primitive "String", builtIn := false })] }

/-! ## Helper lemmas -/

@[simp] lemma writerTrace_append (a b : List Event) :
    writerTrace (a ++ b) = writerTrace a ++ writerTrace b := by
  simp [writerTrace, List.filterMap_append]

@[simp] lemma writerTrace_nil : writerTrace [] = [] := rfl

@[simp] lemma writerTrace_cons (e : Event) (t : List Event) :
    writerTrace (e :: t) = (e.writerOf.toList) ++ writerTrace t := by
  cases e <;> simp [writerTrace, List.filterMap_cons, Event.writerOf]

lemma generateContexts_genfiles (g : Generator) (api : APIDefinition) (env : Env)
    (st : GenState) :
    (generateContexts g api env st).1.genfiles =
      st.genfiles ++ [joinPath g.outDir "contexts.go"] := by
  cases h : env.contextsErr <;> simp [generateContexts, writeFile, h]

lemma generateControllers_genfiles (g : Generator) (api : APIDefinition) (env : Env)
    (st : GenState) :
    (generateControllers g api env st).1.genfiles =
      st.genfiles ++ (match env.buildEncodersErr with
        | some _ => []
        | none => [joinPath g.outDir "controllers.go"]) := by
  cases hb : env.buildEncodersErr <;> cases hl : env.controllersErr <;>
    simp [generateControllers, writeFile, hb, hl]

lemma generateSecurity_genfiles (g : Generator) (api : APIDefinition) (env : Env)
    (st : GenState) :
    (generateSecurity g api env st).1.genfiles =
      st.genfiles ++ (if api.securitySchemes.length = 0 then []
        else [joinPath g.outDir "security.go"]) := by
  by_cases hs : api.securitySchemes.length = 0 <;> cases hse : env.securityErr <;>
    simp [generateSecurity, writeFile, hs, hse]

lemma generateSecurity_fs_skip (g : Generator) (api : APIDefinition) (env : Env)
    (st : GenState) (hs : api.securitySchemes.length = 0) :
    (generateSecurity g api env st).1.fs = st.fs := by
  simp [generateSecurity, hs]

lemma generateHrefs_genfiles (g : Generator) (api : APIDefinition) (env : Env)
    (st : GenState) :
    (generateHrefs g api env st).1.genfiles =
      st.genfiles ++ [joinPath g.outDir "hrefs.go"] := by
  cases h : env.hrefsErr <;> simp [generateHrefs, writeFile, h]

lemma generateMediaTypes_genfiles (g : Generator) (api : APIDefinition) (env : Env)
    (st : GenState) :
    (generateMediaTypes g api env st).1.genfiles =
      st.genfiles ++ [joinPath g.outDir "media_types.go"] := by
  cases h : env.mediaTypesErr <;> simp [generateMediaTypes, writeFile, h]

lemma generateMediaTypes_snd (g : Generator) (api : APIDefinition) (env : Env)
    (st : GenState) :
    (generateMediaTypes g api env st).2 = env.mediaTypesErr := by
  cases h : env.mediaTypesErr <;> simp [generateMediaTypes, writeFile, h]

lemma generateUserTypes_genfiles (g : Generator) (api : APIDefinition) (env : Env)
    (st : GenState) :
    (generateUserTypes g api env st).1.genfiles =
      st.genfiles ++ [joinPath g.outDir "user_types.go"] := by
  cases h : env.userTypesErr <;> simp [generateUserTypes, writeFile, h]

lemma generateResourceTest_genfiles (g : Generator) (api : APIDefinition) (env : Env)
    (st : GenState) :
    (generateResourceTest g api env st).1.genfiles =
      st.genfiles ++ resourceTestFiles g.outDir api := by
  cases h : env.resourceTestErr <;> simp [generateResourceTest, h]

lemma andThen_genfiles_ext {r : GenState × Option String}
    {f : GenState → GenState × Option String} {base : List String}
    (hr : ∃ l, r.1.genfiles = base ++ l)
    (hf : ∀ st, ∃ l, (f st).1.genfiles = st.genfiles ++ l) :
    ∃ l, (andThen r f).1.genfiles = base ++ l := by
  rcases r with ⟨st, e⟩
  cases e with
  | none =>
    rcases hr with ⟨l, hl⟩
    rcases hf st with ⟨l2, hl2⟩
    refine ⟨l ++ l2, ?_⟩
    show (f st).1.genfiles = base ++ (l ++ l2)
    simp only at hl
    rw [hl2, hl, List.append_assoc]
  | some e => exact hr

lemma runWriters_err_trace (g : Generator) (api : APIDefinition) (env : Env)
    (st : GenState) :
    (runWriters g api env st).2 = runErr api env g.notest ∧
    (runWriters g api env st).1.trace =
      st.trace ++ (writerOrder.take (writersCompleted api env g.notest)).map Event.writerRan := by
  cases hc : env.contextsErr with
  | some e =>
    constructor <;>
      simp [runWriters, andThen, generateContexts, writeFile, runErr,
        writersCompleted, writerOrder, hc]
  | none =>
  cases hb : env.buildEncodersErr with
  | some e =>
    constructor <;>
      simp [runWriters, andThen, generateContexts, generateControllers, writeFile,
        runErr, writersCompleted, writerOrder, hc, hb]
  | none =>
  cases hl : env.controllersErr with
  | some e =>
    constructor <;>
      simp [runWriters, andThen, generateContexts, generateControllers, writeFile,
        runErr, writersCompleted, writerOrder, hc, hb, hl]
  | none =>
  by_cases hs : api.securitySchemes.length = 0
  · cases hh : env.hrefsErr with
    | some e =>
      constructor <;>
        simp [runWriters, andThen, generateContexts, generateControllers,
          generateSecurity, generateHrefs, writeFile, runErr, writersCompleted,
          writerOrder, hc, hb, hl, hs, hh]
    | none =>
    cases hm : env.mediaTypesErr with
    | some e =>
      constructor <;>
        simp [runWriters, andThen, generateContexts, generateControllers,
          generateSecurity, generateHrefs, generateMediaTypes, writeFile, runErr,
          writersCompleted, writerOrder, hc, hb, hl, hs, hh, hm]
    | none =>
    cases hu : env.userTypesErr with
    | some e =>
      constructor <;>
        simp [runWriters, andThen, generateContexts, generateControllers,
          generateSecurity, generateHrefs, generateMediaTypes, generateUserTypes,
          writeFile, runErr, writersCompleted, writerOrder, hc, hb, hl, hs, hh, hm, hu]
    | none =>
    cases hnt : g.notest with
    | true =>
      constructor <;>
        simp [runWriters, andThen, generateContexts, generateControllers,
          generateSecurity, generateHrefs, generateMediaTypes, generateUserTypes,
          writeFile, runErr, writersCompleted, writerOrder, hc, hb, hl, hs, hh, hm,
          hu, hnt]
    | false =>
      cases hrt : env.resourceTestErr <;> constructor <;>
        simp [runWriters, andThen, generateContexts, generateControllers,
          generateSecurity, generateHrefs, generateMediaTypes, generateUserTypes,
          generateResourceTest, writeFile, runErr, writersCompleted, writerOrder,
          hc, hb, hl, hs, hh, hm, hu, hnt, hrt]
  · cases hse : env.securityErr with
    | some e =>
      constructor <;>
        simp [runWriters, andThen, generateContexts, generateControllers,
          generateSecurity, writeFile, runErr, writersCompleted, writerOrder,
          hc, hb, hl, hs, hse]
    | none =>
    cases hh : env.hrefsErr with
    | some e =>
      constructor <;>
        simp [runWriters, andThen, generateContexts, generateControllers,
          generateSecurity, generateHrefs, writeFile, runErr, writersCompleted,
          writerOrder, hc, hb, hl, hs, hse, hh]
    | none =>
    cases hm : env.mediaTypesErr with
    | some e =>
      constructor <;>
        simp [runWriters, andThen, generateContexts, generateControllers,
          generateSecurity, generateHrefs, generateMediaTypes, writeFile, runErr,
          writersCompleted, writerOrder, hc, hb, hl, hs, hse, hh, hm]
    | none =>
    cases hu : env.userTypesErr with
    | some e =>
      constructor <;>
        simp [runWriters, andThen, generateContexts, generateControllers,
          generateSecurity, generateHrefs, generateMediaTypes, generateUserTypes,
          writeFile, runErr, writersCompleted, writerOrder, hc, hb, hl, hs, hse,
          hh, hm, hu]
    | none =>
    cases hnt : g.notest with
    | true =>
      constructor <;>
        simp [runWriters, andThen, generateContexts, generateControllers,
          generateSecurity, generateHrefs, generateMediaTypes, generateUserTypes,
          writeFile, runErr, writersCompleted, writerOrder, hc, hb, hl, hs, hse,
          hh, hm, hu, hnt]
    | false =>
      cases hrt : env.resourceTestErr <;> constructor <;>
        simp [runWriters, andThen, generateContexts, generateControllers,
          generateSecurity, generateHrefs, generateMediaTypes, generateUserTypes,
          generateResourceTest, writeFile, runErr, writersCompleted, writerOrder,
          hc, hb, hl, hs, hse, hh, hm, hu, hnt, hrt]

lemma runWriters_genfiles_ext (g : Generator) (api : APIDefinition) (env : Env)
    (st : GenState) :
    ∃ l, (runWriters g api env st).1.genfiles = st.genfiles ++ l := by
  unfold runWriters
  refine andThen_genfiles_ext ⟨_, generateContexts_genfiles g api env st⟩ fun st1 => ?_
  refine andThen_genfiles_ext ⟨_, generateControllers_genfiles g api env st1⟩ fun st2 => ?_
  refine andThen_genfiles_ext ⟨_, generateSecurity_genfiles g api env st2⟩ fun st3 => ?_
  refine andThen_genfiles_ext ⟨_, generateHrefs_genfiles g api env st3⟩ fun st4 => ?_
  refine andThen_genfiles_ext ⟨_, generateMediaTypes_genfiles g api env st4⟩ fun st5 => ?_
  refine andThen_genfiles_ext ⟨_, generateUserTypes_genfiles g api env st5⟩ fun st6 => ?_
  cases hnt : g.notest
  · exact ⟨_, generateResourceTest_genfiles g api env st6⟩
  · exact ⟨[], by simp⟩

lemma runWriters_success (g : Generator) (api : APIDefinition) (env : Env)
    (st : GenState) (h : runErr api env g.notest = none) :
    runWriters g api env st =
      ({ genfiles := st.genfiles ++ successFiles g api,
         fs := some ((st.fs.getD []) ++ successContents g api),
         trace := st.trace ++
           (writerOrder.take (writersCompleted api env g.notest)).map Event.writerRan },
       none) := by
  cases hc : env.contextsErr with
  | some e => simp [runErr, hc] at h
  | none =>
  cases hb : env.buildEncodersErr with
  | some e => simp [runErr, hc, hb] at h
  | none =>
  cases hl : env.controllersErr with
  | some e => simp [runErr, hc, hb, hl] at h
  | none =>
  by_cases hs : api.securitySchemes.length = 0
  · cases hh : env.hrefsErr with
    | some e => simp [runErr, hc, hb, hl, hs, hh] at h
    | none =>
    cases hm : env.mediaTypesErr with
    | some e => simp [runErr, hc, hb, hl, hs, hh, hm] at h
    | none =>
    cases hu : env.userTypesErr with
    | some e => simp [runErr, hc, hb, hl, hs, hh, hm, hu] at h
    | none =>
    cases hnt : g.notest with
    | true =>
      simp [runWriters, andThen, generateContexts, generateControllers,
        generateSecurity, generateHrefs, generateMediaTypes, generateUserTypes,
        writeFile, writersCompleted, writerOrder, successFiles, successContents,
        testContents, hc, hb, hl, hs, hh, hm, hu, hnt]
    | false =>
      cases hrt : env.resourceTestErr with
      | some e => simp [runErr, hc, hb, hl, hs, hh, hm, hu, hnt, hrt] at h
      | none =>
        simp [runWriters, andThen, generateContexts, generateControllers,
          generateSecurity, generateHrefs, generateMediaTypes, generateUserTypes,
          generateResourceTest, writeFile, writersCompleted, writerOrder,
          successFiles, successContents, testContents, resourceTestFiles,
          hc, hb, hl, hs, hh, hm, hu, hnt, hrt]
  · cases hse : env.securityErr with
    | some e => simp [runErr, hc, hb, hl, hs, hse] at h
    | none =>
    cases hh : env.hrefsErr with
    | some e => simp [runErr, hc, hb, hl, hs, hse, hh] at h
    | none =>
    cases hm : env.mediaTypesErr with
    | some e => simp [runErr, hc, hb, hl, hs, hse, hh, hm] at h
    | none =>
    cases hu : env.userTypesErr with
    | some e => simp [runErr, hc, hb, hl, hs, hse, hh, hm, hu] at h
    | none =>
    cases hnt : g.notest with
    | true =>
      simp [runWriters, andThen, generateContexts, generateControllers,
        generateSecurity, generateHrefs, generateMediaTypes, generateUserTypes,
        writeFile, writersCompleted, writerOrder, successFiles, successContents,
        testContents, hc, hb, hl, hs, hse, hh, hm, hu, hnt]
    | false =>
      cases hrt : env.resourceTestErr with
      | some e => simp [runErr, hc, hb, hl, hs, hse, hh, hm, hu, hnt, hrt] at h
      | none =>
        simp [runWriters, andThen, generateContexts, generateControllers,
          generateSecurity, generateHrefs, generateMediaTypes, generateUserTypes,
          generateResourceTest, writeFile, writersCompleted, writerOrder,
          successFiles, successContents, testContents, resourceTestFiles,
          hc, hb, hl, hs, hse, hh, hm, hu, hnt, hrt]

lemma Cleanup_trace (st : GenState) :
    (Cleanup st).trace = st.trace ++ [Event.cleanupInvoked] := by
  unfold Cleanup
  by_cases h : st.genfiles.length = 0 <;> simp [h]

lemma Cleanup_files_clear (st : GenState) (h : st.genfiles ≠ []) :
    (Cleanup st).fs = none := by
  unfold Cleanup
  have : ¬ st.genfiles.length = 0 := by simpa [List.length_eq_zero] using h
  simp [this]

lemma Cleanup_fs_of_absent (st : GenState) (h : st.fs = none) :
    (Cleanup st).fs = none := by
  unfold Cleanup
  by_cases hg : st.genfiles.length = 0 <;> simp [hg, h]


@[simp] lemma writerTrace_map_writerRan (l : List WriterKind) :
    writerTrace (l.map Event.writerRan) = l := by
  induction l with
  | nil => rfl
  | cons a t ih => simp [Event.writerOf, ih]

lemma Generate_some_eq (g : Generator) (api : APIDefinition) (env : Env) (fs : FS) :
    Generate g (some api) env fs =
      match env.mkdirErr with
      | some e =>
        finishRun ⟨g.genfiles, none, [Event.catchRegistered, Event.removedAll]⟩ (some e)
      | none =>
        finishRun
          (runWriters g api env
            ⟨[g.outDir], some [],
             [Event.catchRegistered, Event.removedAll, Event.madeDir]⟩).1
          (runWriters g api env
            ⟨[g.outDir], some [],
             [Event.catchRegistered, Event.removedAll, Event.madeDir]⟩).2 := by
  cases hm : env.mkdirErr <;> simp [Generate, hm]

lemma Generate_error_char (g : Generator) (api : APIDefinition) (env : Env) (fs : FS) :
    (Generate g (some api) env fs).error =
      match env.mkdirErr with
      | some e => some e
      | none => runErr api env g.notest := by
  rw [Generate_some_eq]
  cases hm : env.mkdirErr with
  | some e => simp [finishRun]
  | none =>
    rcases hr : runWriters g api env
      ⟨[g.outDir], some [],
       [Event.catchRegistered, Event.removedAll, Event.madeDir]⟩ with ⟨st2, r2⟩
    have hsnd := (runWriters_err_trace g api env
      ⟨[g.outDir], some [],
       [Event.catchRegistered, Event.removedAll, Event.madeDir]⟩).1
    rw [hr] at hsnd
    cases r2 <;> simp [finishRun, ← hsnd]

lemma runErr_noErrors (api : APIDefinition) (b : Bool) :
    runErr api Env.noErrors b = none := by
  simp [runErr, Env.noErrors]

lemma Generate_success_char (g : Generator) (api : APIDefinition) (env : Env) (fs : FS)
    (hm : env.mkdirErr = none) (h2 : runErr api env g.notest = none) :
    Generate g (some api) env fs =
      { files := some (g.outDir :: successFiles g api),
        error := none,
        fs := some (successContents g api),
        trace := [Event.catchRegistered, Event.removedAll, Event.madeDir] ++
          (writerOrder.take (writersCompleted api env g.notest)).map Event.writerRan } := by
  rw [Generate_some_eq, hm]
  rw [runWriters_success g api env _ h2]
  simp [finishRun]



lemma mem_insertSortedNodup (x z : String) (l : List String) :
    z ∈ insertSortedNodup x l ↔ z = x ∨ z ∈ l := by
  induction l with
  | nil => simp [insertSortedNodup]
  | cons y ys ih =>
    by_cases hxy : x = y
    · subst hxy
      simp [insertSortedNodup]
    · by_cases hlt : x < y
      · simp [insertSortedNodup, hxy, hlt, ih]
      · simp [insertSortedNodup, hxy, hlt, ih]
        tauto

lemma sorted_insertSortedNodup (x : String) (l : List String)
    (h : l.Sorted (· < ·)) : (insertSortedNodup x l).Sorted (· < ·) := by
  induction l with
  | nil => simp [insertSortedNodup]
  | cons y ys ih =>
    rw [List.sorted_cons] at h
    by_cases hxy : x = y
    · subst hxy
      rw [insertSortedNodup, if_pos rfl]
      exact List.sorted_cons.2 h
    · by_cases hlt : x < y
      · rw [insertSortedNodup, if_neg hxy, if_pos hlt]
        refine List.sorted_cons.2 ⟨?_, List.sorted_cons.2 h⟩
        intro b hb
        rcases List.mem_cons.1 hb with hb | hb
        · exact hb ▸ hlt
        · exact lt_trans hlt (h.1 b hb)
      · have hyx : y < x := by
          rcases lt_trichotomy x y with h1 | h1 | h1
          · exact absurd h1 hlt
          · exact absurd h1 hxy
          · exact h1
        rw [insertSortedNodup, if_neg hxy, if_neg hlt]
        refine List.sorted_cons.2 ⟨?_, ih h.2⟩
        intro b hb
        rcases (mem_insertSortedNodup x b ys).1 hb with hb | hb
        · exact hb ▸ hyx
        · exact h.1 b hb

lemma sorted_sortedDedup (l : List String) : (sortedDedup l).Sorted (· < ·) := by
  induction l with
  | nil => simp [sortedDedup]
  | cons x xs ih => exact sorted_insertSortedNodup x _ ih

lemma nodup_sortedDedup (l : List String) : (sortedDedup l).Nodup :=
  (sorted_sortedDedup l).nodup

lemma buildEncoders_packagePaths (mimes : List String) (b : Bool) :
    (BuildEncoders mimes b).map (fun d => d.packagePath) =
      sortedDedup (mimes.map mimePackagePath) := by
  simp only [BuildEncoders, List.map_map]
  exact List.map_id _

lemma sorted_controllersExtraImports (encoders decoders : List EncoderTemplateData) :
    List.Sorted (· ≤ ·) (controllersExtraImports encoders decoders) :=
  List.sorted_insertionSort (· ≤ ·) _

lemma nodup_controllersExtraImports (encoders decoders : List EncoderTemplateData) :
    (controllersExtraImports encoders decoders).Nodup := by
  refine (List.perm_insertionSort (· ≤ ·) _).symm.nodup ?_
  exact (List.nodup_dedup _).filter _



@[simp] lemma writerTrace_take_map_writerRan (n : Nat) (l : List WriterKind) :
    writerTrace (List.take n (l.map Event.writerRan)) = l.take n := by
  rw [← List.map_take, writerTrace_map_writerRan]

/-! ## Claims -/

/-- C1: for every input IR that causes a writer error during generation (a
file-system failure or any error returned by a writer), `Generate` invokes
cleanup so that the output directory is removed — absent after the failed
run, never partially populated — and returns the error together with a nil
file list rather than a partial one. -/
theorem C1_writer_error_rolls_back (g : Generator) (api : APIDefinition) (env : Env)
    (fs : FS) (e : String)
    (h : (Generate g (some api) env fs).error = some e) :
    (Generate g (some api) env fs).files = none ∧
    (Generate g (some api) env fs).fs = none ∧
    Event.cleanupInvoked ∈ (Generate g (some api) env fs).trace := by
  cases hm : env.mkdirErr with
  | some e2 =>
    simp only [Generate_some_eq, hm]
    exact ⟨rfl, Cleanup_fs_of_absent _ rfl, by simp [finishRun, Cleanup_trace]⟩
  | none =>
    simp only [Generate_some_eq, hm] at h ⊢
    rcases hr : runWriters g api env
      ⟨[g.outDir], some [], [Event.catchRegistered, Event.removedAll, Event.madeDir]⟩
      with ⟨st2, r2⟩
    cases r2 with
    | none =>
      rw [hr] at h
      simp [finishRun] at h
    | some e2 =>
      obtain ⟨l, hl⟩ := runWriters_genfiles_ext g api env
        ⟨[g.outDir], some [], [Event.catchRegistered, Event.removedAll, Event.madeDir]⟩
      rw [hr] at hl
      refine ⟨rfl, ?_, ?_⟩
      · refine Cleanup_files_clear st2 ?_
        simp only [] at hl
        simp [hl]
      · simp [finishRun, Cleanup_trace]

/-- C1 witness: a concrete failing run (contexts writer fails on the dummy
API) returns the error, a nil file list and an absent output directory. -/
theorem C1_witness :
    (Generate gEx (some dummyAPI) envFailContexts none).error = some "disk full" ∧
    ((Generate gEx (some dummyAPI) envFailContexts none).files = none ∧
     (Generate gEx (some dummyAPI) envFailContexts none).fs = none ∧
     Event.cleanupInvoked ∈ (Generate gEx (some dummyAPI) envFailContexts none).trace) :=
  ⟨rfl, C1_writer_error_rolls_back gEx dummyAPI envFailContexts none "disk full" rfl⟩

/-- C2: for every non-nil API definition, `Generate` first deletes and
recreates the output directory and then invokes the artifact writers
strictly in the order contexts, controllers, security, hrefs, media types,
user types, resource tests; the writers actually run form a prefix of this
order (no writer runs before all earlier ones succeeded), the security step
appends a file to `genfiles` only when at least one security scheme is
declared (and touches no file otherwise), and the resource-test step never
runs when test generation is disabled. -/
theorem C2_writer_order (g : Generator) (api : APIDefinition) (env : Env) (fs : FS) :
    writerTrace (Generate g (some api) env fs).trace =
      writerOrder.take (stepsRun api env g.notest) ∧
    (env.mkdirErr = none → ∃ rest,
      (Generate g (some api) env fs).trace =
        Event.catchRegistered :: Event.removedAll :: Event.madeDir :: rest) ∧
    (∀ st : GenState, (generateSecurity g api env st).1.genfiles =
      st.genfiles ++ (if api.securitySchemes.length = 0 then []
        else [joinPath g.outDir "security.go"])) ∧
    (∀ st : GenState, api.securitySchemes.length = 0 →
      (generateSecurity g api env st).1.fs = st.fs) ∧
    (g.notest = true →
      WriterKind.resourceTest ∉ writerTrace (Generate g (some api) env fs).trace) := by
  have key : writerTrace (Generate g (some api) env fs).trace =
      writerOrder.take (stepsRun api env g.notest) := by
    cases hm : env.mkdirErr with
    | some e =>
      simp only [Generate_some_eq, hm]
      simp [finishRun, Cleanup_trace, stepsRun, Event.writerOf, hm]
    | none =>
      simp only [Generate_some_eq, hm]
      rcases hr : runWriters g api env
        ⟨[g.outDir], some [], [Event.catchRegistered, Event.removedAll, Event.madeDir]⟩
        with ⟨st2, r2⟩
      have ht := (runWriters_err_trace g api env
        ⟨[g.outDir], some [], [Event.catchRegistered, Event.removedAll, Event.madeDir]⟩).2
      rw [hr] at ht
      simp only [] at ht
      cases r2 with
      | none => simp [finishRun, ht, stepsRun, Event.writerOf, hm]
      | some e2 => simp [finishRun, Cleanup_trace, ht, stepsRun, Event.writerOf, hm]
  refine ⟨key, ?_, generateSecurity_genfiles g api env, ?_, ?_⟩
  · intro hm
    simp only [Generate_some_eq, hm]
    rcases hr : runWriters g api env
      ⟨[g.outDir], some [], [Event.catchRegistered, Event.removedAll, Event.madeDir]⟩
      with ⟨st2, r2⟩
    have ht := (runWriters_err_trace g api env
      ⟨[g.outDir], some [], [Event.catchRegistered, Event.removedAll, Event.madeDir]⟩).2
    rw [hr] at ht
    simp only [] at ht
    cases r2 with
    | none =>
      exact ⟨(writerOrder.take (writersCompleted api env g.notest)).map Event.writerRan,
        by simp [finishRun, ht]⟩
    | some e2 =>
      exact ⟨(writerOrder.take (writersCompleted api env g.notest)).map Event.writerRan
          ++ [Event.cleanupInvoked],
        by simp [finishRun, Cleanup_trace, ht]⟩
  · intro st hs
    exact generateSecurity_fs_skip g api env st hs
  · intro hnt
    rw [key, hnt]
    have h6 : stepsRun api env true ≤ 6 := by
      unfold stepsRun writersCompleted
      repeat' split
      all_goals first | omega | simp_all
    intro hmem
    rw [show writerOrder.take (stepsRun api env true) =
        (writerOrder.take 6).take (stepsRun api env true) by
      rw [List.take_take, min_eq_left h6]] at hmem
    have := List.mem_of_mem_take hmem
    simp [writerOrder] at this

/-- C2 witness: a concrete successful run on the dummy API invokes all
seven writers in order and its trace starts with the directory delete and
recreate. -/
theorem C2_witness :
    writerTrace (Generate gEx (some dummyAPI) Env.noErrors none).trace =
      writerOrder.take (stepsRun dummyAPI Env.noErrors gEx.notest) ∧
    (∃ rest, (Generate gEx (some dummyAPI) Env.noErrors none).trace =
      Event.catchRegistered :: Event.removedAll :: Event.madeDir :: rest) :=
  ⟨(C2_writer_order gEx dummyAPI Env.noErrors none).1,
   (C2_writer_order gEx dummyAPI Env.noErrors none).2.1 rfl⟩

/-- C3: for every successful run of `Generate`, the returned file list has
the output directory as its first entry, followed by `contexts.go`,
`controllers.go`, `security.go` when schemes exist, `hrefs.go`,
`media_types.go`, `user_types.go` and — unless disabled — the test files,
each appended in generation order. -/
theorem C3_success_file_list (g : Generator) (api : APIDefinition) (env : Env)
    (fs : FS) (h : (Generate g (some api) env fs).error = none) :
    (Generate g (some api) env fs).files =
      some (g.outDir :: joinPath g.outDir "contexts.go" ::
        joinPath g.outDir "controllers.go" ::
        ((if api.securitySchemes.length = 0 then []
          else [joinPath g.outDir "security.go"]) ++
         [joinPath g.outDir "hrefs.go", joinPath g.outDir "media_types.go",
          joinPath g.outDir "user_types.go"] ++
         (if g.notest then [] else resourceTestFiles g.outDir api))) := by
  have hm : env.mkdirErr = none := by
    cases hme : env.mkdirErr with
    | none => rfl
    | some e =>
      rw [Generate_error_char] at h
      simp [hme] at h
  have h2 : runErr api env g.notest = none := by
    rw [Generate_error_char] at h
    simpa [hm] using h
  rw [Generate_success_char g api env fs hm h2]
  simp [successFiles]

/-- C3 witness: the concrete dummy-API run returns exactly the directory
entry followed by the fixed file names. -/
theorem C3_witness :
    (Generate gEx (some dummyAPI) Env.noErrors none).error = none ∧
    (Generate gEx (some dummyAPI) Env.noErrors none).files =
      some (gEx.outDir :: joinPath gEx.outDir "contexts.go" ::
        joinPath gEx.outDir "controllers.go" ::
        ((if dummyAPI.securitySchemes.length = 0 then []
          else [joinPath gEx.outDir "security.go"]) ++
         [joinPath gEx.outDir "hrefs.go", joinPath gEx.outDir "media_types.go",
          joinPath gEx.outDir "user_types.go"] ++
         (if gEx.notest then [] else resourceTestFiles gEx.outDir dummyAPI))) :=
  ⟨rfl, C3_success_file_list gEx dummyAPI Env.noErrors none rfl⟩

/-- C4: for every valid linked IR and fixed options, `Generate` is
deterministic — two independent runs (in particular over any two
pre-existing states of the output directory) produce identical results:
the same returned file paths and the same generated file contents. -/
theorem C4_deterministic_output (g : Generator) (api : APIDefinition) (env : Env)
    (fs1 fs2 : FS) :
    Generate g (some api) env fs1 = Generate g (some api) env fs2 := rfl

/-- C5 counterexample: the dummy API with zero resources generates
`user_types.go` as well, so the produced file set is not exactly the four
skeleton files (contexts, controllers, hrefs, media types) named by the
claim. -/
theorem C5_counterexample :
    (Generate gEx (some dummyAPI) Env.noErrors none).error = none ∧
    joinPath gEx.outDir "user_types.go" ∈
      ((Generate gEx (some dummyAPI) Env.noErrors none).files.getD []) ∧
    (Generate gEx (some dummyAPI) Env.noErrors none).files ≠
      some [gEx.outDir, joinPath gEx.outDir "contexts.go",
        joinPath gEx.outDir "controllers.go", joinPath gEx.outDir "hrefs.go",
        joinPath gEx.outDir "media_types.go"] := by
  refine ⟨rfl, ?_, ?_⟩ <;> decide

/-- C5 (amended): for an API with zero resources and no security schemes,
generation succeeds and produces exactly the directory entry plus the five
fixed skeleton files contexts.go, controllers.go, hrefs.go, media_types.go
and user_types.go (no test entries), with no resource-specific units in the
contexts, controllers or hrefs files. -/
theorem C5_amended_zero_resources (g : Generator) (api : APIDefinition) (fs : FS)
    (hres : api.resources = []) (hsec : api.securitySchemes = []) :
    (Generate g (some api) Env.noErrors fs).error = none ∧
    (Generate g (some api) Env.noErrors fs).files =
      some [g.outDir, joinPath g.outDir "contexts.go",
        joinPath g.outDir "controllers.go", joinPath g.outDir "hrefs.go",
        joinPath g.outDir "media_types.go", joinPath g.outDir "user_types.go"] ∧
    (Generate g (some api) Env.noErrors fs).fs =
      some [(joinPath g.outDir "contexts.go",
        FileContent.contextsFile (api.contextDesc ++ ": Application Contexts")
          g.target []),
        (joinPath g.outDir "controllers.go",
         FileContent.controllersFile (api.contextDesc ++ ": Application Controllers")
           g.target
           (controllersExtraImports (BuildEncoders api.produces true)
             (BuildEncoders api.consumes false))
           (BuildEncoders api.produces true) (BuildEncoders api.consumes false) []),
        (joinPath g.outDir "hrefs.go",
         FileContent.hrefsFile
           (api.contextDesc ++ ": Application Resource Href Factories") g.target []),
        (joinPath g.outDir "media_types.go",
         FileContent.mediaTypesFile (api.contextDesc ++ ": Application Media Types")
           g.target (mediaTypesUnits api)),
        (joinPath g.outDir "user_types.go",
         FileContent.userTypesFile (api.contextDesc ++ ": Application User Types")
           g.target (userTypesUnits api))] := by
  rw [Generate_success_char g api Env.noErrors fs rfl (runErr_noErrors api g.notest)]
  refine ⟨rfl, ?_, ?_⟩
  · simp [successFiles, resourceTestFiles, hres, hsec]
  · simp [successContents, testContents, contextsUnits, controllersUnits,
      hrefsUnits, hres, hsec]

/-- C5 witness: the amended statement evaluated on the concrete dummy API. -/
theorem C5_amended_witness :
    dummyAPI.resources = [] ∧ dummyAPI.securitySchemes = [] ∧
    (Generate gEx (some dummyAPI) Env.noErrors none).error = none ∧
    (Generate gEx (some dummyAPI) Env.noErrors none).files =
      some [gEx.outDir, joinPath gEx.outDir "contexts.go",
        joinPath gEx.outDir "controllers.go", joinPath gEx.outDir "hrefs.go",
        joinPath gEx.outDir "media_types.go", joinPath gEx.outDir "user_types.go"] :=
  ⟨rfl, rfl, (C5_amended_zero_resources gEx dummyAPI none rfl rfl).1,
   (C5_amended_zero_resources gEx dummyAPI none rfl rfl).2.1⟩

/-- C6: for every action, the responses handed to the context writer are
exactly the action's responses whose status code is not 101: every
101-status response is removed and every other response is retained
unchanged. -/
theorem C6_non101_responses (target : String) (api : APIDefinition)
    (r : ResourceDefinition) (a : ActionDefinition) (k : String)
    (v : ResponseDefinition) :
    ((k, v) ∈ (contextDataFor target api r a).responses ↔
      (k, v) ∈ a.responses ∧ v.status ≠ 101) := by
  simp [contextDataFor, non101, List.mem_filter]

/-- C7: for every action of every resource (in a linked IR, where the
action's parent back-reference names its owning resource), the derived
context identifier is the Goified action name concatenated with the Goified
resource name and the suffix "Context"; the contexts writer and the
controllers writer derive the same identifier, and the inputs
"get-widget", "get_widget" and "GetWidget" normalize identically. -/
theorem C7_context_identifier (r : ResourceDefinition) (a : ActionDefinition)
    (h : a.parentName = r.name) :
    contextsWriterCtxName a = controllersWriterCtxName r a ∧
    contextsWriterCtxName a =
      Goify a.name true ++ Goify a.parentName true ++ "Context" ∧
    Goify "get-widget" true = "GetWidget" ∧
    Goify "get_widget" true = "GetWidget" ∧
    Goify "GetWidget" true = "GetWidget" := by
  refine ⟨?_, rfl, by decide, by decide, by decide⟩
  simp [contextsWriterCtxName, controllersWriterCtxName, h]

/-- C7 witness: the concrete Widget/get fixture derives the same
`GetWidgetContext` identifier in both writers. -/
theorem C7_witness :
    widgetAction.parentName = widgetRes.name ∧
    contextsWriterCtxName widgetAction =
      controllersWriterCtxName widgetRes widgetAction ∧
    contextsWriterCtxName widgetAction = "GetWidgetContext" :=
  ⟨rfl, (C7_context_identifier widgetRes widgetAction rfl).1, by decide⟩

/-- C8: for every pair of Produces/Consumes MIME lists, the encoder and
decoder resolution yields binding lists without duplicate packages, and the
extra import paths added to the controllers file contain no duplicates and
are sorted alphabetically. -/
theorem C8_encoder_imports_sorted (api : APIDefinition) :
    List.Sorted (· ≤ ·)
      (controllersExtraImports (BuildEncoders api.produces true)
        (BuildEncoders api.consumes false)) ∧
    (controllersExtraImports (BuildEncoders api.produces true)
      (BuildEncoders api.consumes false)).Nodup ∧
    ((BuildEncoders api.produces true).map (fun d => d.packagePath)).Nodup ∧
    ((BuildEncoders api.consumes false).map (fun d => d.packagePath)).Nodup := by
  refine ⟨sorted_controllersExtraImports _ _, nodup_controllersExtraImports _ _, ?_, ?_⟩
  · rw [buildEncoders_packagePaths]
    exact nodup_sortedDedup _
  · rw [buildEncoders_packagePaths]
    exact nodup_sortedDedup _

/-- C9: calling `Generate` with a nil API definition returns a nil file
list and the missing-API error before any filesystem effect: the output
directory state is returned untouched and the event trace is empty (no
cleanup handler is registered, nothing is deleted or created). -/
theorem C9_nil_api (g : Generator) (env : Env) (fs : FS) :
    Generate g none env fs =
      { files := none, error := some missingAPIMsg, fs := fs, trace := [] } := rfl

/-- C10: a media type yields a generated unit exactly when it is not
built-in and its underlying type is an object or an array; all other media
types are skipped without error (the writer's error is exactly the injected
one), and `media_types.go` itself is always appended to the file list. -/
theorem C10_media_type_emission (g : Generator) (api : APIDefinition) (env : Env)
    (st : GenState) (mt : MediaTypeDefinition) :
    (mt ∈ mediaTypesUnits api ↔
      (∃ k, (k, mt) ∈ api.mediaTypes) ∧ mt.builtIn = false ∧
        (mt.dtype.isObject = true ∨ mt.dtype.isArray = true)) ∧
    (generateMediaTypes g api env st).1.genfiles =
      st.genfiles ++ [joinPath g.outDir "media_types.go"] ∧
    (generateMediaTypes g api env st).2 = env.mediaTypesErr := by
  refine ⟨?_, generateMediaTypes_genfiles g api env st,
    generateMediaTypes_snd g api env st⟩
  constructor
  · intro h
    rcases List.mem_map.1 h with ⟨kv, hkv, rfl⟩
    rcases List.mem_filter.1 hkv with ⟨hmem, hp⟩
    simp only [mediaTypeEmitted, Bool.and_eq_true, Bool.or_eq_true,
      Bool.not_eq_true'] at hp
    exact ⟨⟨kv.1, hmem⟩, hp.1, hp.2⟩
  · rintro ⟨⟨k, hk⟩, hb, ho⟩
    refine List.mem_map.2 ⟨(k, mt), List.mem_filter.2 ⟨hk, ?_⟩, rfl⟩
    simp [mediaTypeEmitted, Bool.and_eq_true, Bool.or_eq_true,
      Bool.not_eq_true', hb, ho]


end GenApp
